import Mathlib

set_option maxHeartbeats 1000000

/-!
Verification of the CLEOsat satellite-tracking code base.

Shallow embedding of the core logic of
`SatTrack/visible.py` (class `Compute`, function `compute_visible`),
`leosTrack/track/visible.py` (class `ComputeVisibility`) and
`leosTrack/track/fixtime.py` (class `FixWindow`).

Modelling conventions:
* Python floats are modelled as rationals (`Rat`); the one genuinely
  irrational operation, `np.sqrt` in the angular-velocity formula, is
  modelled over the reals by `angularVelocity` below.
* Python dictionaries holding observatory descriptors are modelled as
  association lists `List (String × PValue)` in insertion order.
* The orbit / ephemeris collaborators (`pyorbital`, `ephem`) are out of
  scope of the repository and are abstracted as query functions of the
  current time; fallible queries return `Option`.
* A Python exception escaping a function is modelled with `Except`:
  the bare `except:` around `get_lonlatalt` maps a failed sub-satellite
  query to a caught `return None`, while a failed `get_observer_look`
  (not wrapped in any `try`) surfaces as `Except.error`.
-/

/-- Values a raw observatory dictionary can hold: a plain number, a
string, a `[degrees, minutes, seconds]` component list, or a
`datetime.timedelta` (produced by the leosTrack resolver for `tz`). -/
inductive PValue where
  | num (q : ℚ)
  | str (s : String)
  | nums (l : List ℚ)
  | td (hours : ℚ)
deriving DecidableEq

/-- A Python dict in insertion order, as used for observatory data. -/
abbrev PDict := List (String × PValue)

/-- The inner loop of both `set_observatory_data` implementations:
walks the component list carrying `(sign, accumulator)`; a negative
component sets the sign to `-1` and contributes its absolute value;
component `idx` is divided by `60 ^ idx`. -/
def accumulateParts : List ℚ → ℕ → ℚ → ℚ → ℚ × ℚ
  | [], _, sign, acc => (sign, acc)
  | p :: rest, idx, sign, acc =>
    let sign1 := if p < 0 then -1 else sign
    let p1 := if p < 0 then |p| else p
    accumulateParts rest (idx + 1) sign1 (acc + p1 / 60 ^ idx)

/-- `sign * accumulated`, as assigned by
`update_format[parameter_observatory] = sign * update_format[...]`. -/
def signedDegrees (parts : List ℚ) : ℚ :=
  let r := accumulateParts parts 0 1 0
  r.1 * r.2

/-- Spec-side formulation (§4.1 of the spec): the accumulated magnitude
is the sum of the absolute components weighted by `1 / 60 ^ idx`. -/
def specMagnitude : List ℚ → ℕ → ℚ
  | [], _ => 0
  | p :: rest, idx => |p| / 60 ^ idx + specMagnitude rest (idx + 1)

/-- Spec-side formulation of the signed accumulation: the sign is `-1`
exactly when some (equivalently, the first) negative component occurs. -/
def specSignedDegrees (parts : List ℚ) : ℚ :=
  (if parts.any (fun p => decide (p < 0)) then -1 else 1) * specMagnitude parts 0

/-- Per-key value transform of both `set_observatory_data`
implementations: a component list is collapsed by the signed
accumulation, any other value passes through; the key `longitude`
additionally gets `360 - x` when `x > 180` and `-x` otherwise.
(A non-numeric longitude would raise a `TypeError` at the comparison
`> 180.0` in the source and is outside the modelled domain; the model
passes it through.) -/
def observatoryValueUpdate (k : String) (v : PValue) : PValue :=
  let v1 := match v with
    | PValue.nums l => PValue.num (signedDegrees l)
    | w => w
  if k = ("longitude") then
    match v1 with
    | PValue.num q => PValue.num (if q > 180 then 360 - q else -q)
    | w => w
  else v1

/-- `Compute._set_observatory_data` of `SatTrack/visible.py`: builds a
fresh dict applying `observatoryValueUpdate` to every entry. -/
def setObservatoryData (d : PDict) : PDict :=
  d.map (fun kv => (kv.1, observatoryValueUpdate kv.1 kv.2))

/-- `ComputeVisibility.set_observatory_data` of
`leosTrack/track/visible.py`: same per-entry transform, followed by
`update_format["tz"] = timedelta(hours=data_observatory["tz"])`.
A missing `tz` key raises `KeyError` and a non-numeric `tz` raises
`TypeError` in the source, modelled as `none`. -/
def leosSetObservatoryData (d : PDict) : Option PDict :=
  let m := d.map (fun kv => (kv.1, observatoryValueUpdate kv.1 kv.2))
  match List.lookup ("tz") d with
  | some (PValue.num q) =>
      some (m.map (fun kv => if kv.1 = ("tz") then (kv.1, PValue.td q) else kv))
  | _ => none

/-- The dictionary hardcoded as `test_observatory` inside
`compute_visible` (`SatTrack/visible.py`, lines 288-292). -/
def testObservatory : PDict :=
  [(("name"), PValue.str ("European Southern Observatory, La Silla")),
   (("longitude"), PValue.nums [70, 43.8]),
   (("latitude"), PValue.nums [-29, 15.4]),
   (("altitude"), PValue.num 2347),
   (("tz"), PValue.num 4)]

/-- Latitude argument passed to `darksat.get_observer_look` in
`compute_visible`: the raw value of the `observatory_data` parameter
(line 272), not a normalized one. -/
def computeVisibleLookLatitude (d : PDict) : Option PValue :=
  List.lookup ("latitude") d

/-- Longitude argument passed to `darksat.get_observer_look` in
`compute_visible`: the raw value of the `observatory_data` parameter
(line 275). -/
def computeVisibleLookLongitude (d : PDict) : Option PValue :=
  List.lookup ("longitude") d

/-- Latitude argument of `pyorbital.astronomy.sun_zenith_angle` in
`compute_visible` (line 345): the same raw parameter value. -/
def computeVisibleZenithLatitude (d : PDict) : Option PValue :=
  List.lookup ("latitude") d

/-- Latitude bound into the `ephem.Observer` used by `radec_of` in
`compute_visible`: `Compute` is constructed with the hardcoded
`test_observatory`, so `set_observer` reads the normalized La Silla
data regardless of the `observatory_data` parameter of the run. -/
def computeVisibleObserverLatitude : Option PValue :=
  List.lookup ("latitude") (setObservatoryData testObservatory)

/-- Longitude bound into the `ephem.Observer` used by `radec_of` in
`compute_visible`, likewise from the hardcoded `test_observatory`. -/
def computeVisibleObserverLongitude : Option PValue :=
  List.lookup ("longitude") (setObservatoryData testObservatory)

/-- Arguments `(longitude, latitude, altitude / 1000)` passed to
`satellite.get_observer_look` by
`FixWindow.compute_visibility_of_satellite` (fixtime.py, lines 84-92):
all read from `self.observatory_data`, the resolved dict stored by the
`ComputeVisibility` constructor. -/
def leosLookBinding (raw : PDict) : Option (Option PValue × Option PValue × Option PValue) :=
  match leosSetObservatoryData raw with
  | none => none
  | some m =>
      some (List.lookup ("longitude") m, List.lookup ("latitude") m,
        (List.lookup ("altitude") m).map (fun v =>
          match v with
          | PValue.num q => PValue.num (q / 1000)
          | w => w))

/-- Arguments `(longitude, latitude)` passed to
`pyorbital.astronomy.sun_zenith_angle` by `FixWindow` (lines 117-119):
read from the same resolved `self.observatory_data`. -/
def leosZenithBinding (raw : PDict) : Option (Option PValue × Option PValue) :=
  match leosSetObservatoryData raw with
  | none => none
  | some m => some (List.lookup ("longitude") m, List.lookup ("latitude") m)

/-- Fields `(latitude, longitude, altitude)` bound into the
`ephem.Observer` by `ComputeVisibility._set_observer` (visible.py,
lines 175-187): read from the same resolved `self.observatory_data`. -/
def leosObserverBinding (raw : PDict) : Option (Option PValue × Option PValue × Option PValue) :=
  match leosSetObservatoryData raw with
  | none => none
  | some m =>
      some (List.lookup ("latitude") m, List.lookup ("longitude") m,
        List.lookup ("altitude") m)

/-- The two recognized observation windows. The guard in
`Compute.__init__` and in `FixWindow.get_date_time_object` rejects any
other keyword before this type is ever reached (see `windowGuard`). -/
inductive Window where
  | morning
  | evening
deriving DecidableEq

/-- `Compute._set_hour` of `SatTrack/visible.py`: local start hour
`12 + tz` for evening, `0 + tz` for morning, then one conditional
correction `-24` when `≥ 24`, else `+24` when `< 0`. -/
def setHour (w : Window) (tz : ℤ) : ℤ :=
  let hour : ℤ := match w with
    | Window.evening => 12 + tz
    | Window.morning => 0 + tz
  if hour ≥ 24 then hour - 24 else if hour < 0 then hour + 24 else hour

/-- Spec-side normalization (§4.2 of the spec): bring the raw hour
into `[0,24)` by subtracting 24 when `≥ 24` and adding 24 when `< 0`. -/
def specNormalizeHour (h : ℤ) : ℤ :=
  if h ≥ 24 then h - 24 else if h < 0 then h + 24 else h

/-- `Compute.set_window` of `SatTrack/visible.py`: decrements the day
exactly when the window is morning and the time zone is negative, and
returns `[hour, day]` with the hour from `_set_hour`. -/
def setWindow (w : Window) (day tz : ℤ) : ℤ × ℤ :=
  let day1 := if w = Window.morning ∧ tz < 0 then day - 1 else day
  (setHour w tz, day1)

/-- Start instant computed by `FixWindow.get_date_time_object`
(fixtime.py, lines 192-211), measured in whole hours on an unbounded
day axis: `datetime(year, month, day, hour=0 or 12) + timedelta(hours=tz)`.
The year and month are fixed context; a day index outside the current
month corresponds to the calendar rollover `datetime` performs. -/
def getDateTimeObjectStart (w : Window) (day tz : ℤ) : ℤ :=
  24 * day + (match w with | Window.morning => 0 | Window.evening => 12) + tz

/-- Finish instant of `FixWindow.get_date_time_object`:
`start_date_time + datetime.timedelta(hours=12)`. -/
def getDateTimeObjectFinish (w : Window) (day tz : ℤ) : ℤ :=
  getDateTimeObjectStart w day tz + 12

/-- Calendar day of an instant on the hour axis (floor division, which
is what Python datetime arithmetic performs for positive divisors). -/
def dayOfDateTime (t : ℤ) : ℤ := t / 24

/-- Hour-of-day of an instant on the hour axis, in `[0, 24)`. -/
def hourOfDateTime (t : ℤ) : ℤ := t % 24

/-- Result of the window-keyword guard: either the process exits with
the given status code, or execution proceeds. -/
inductive InitResult where
  | exited (code : ℕ)
  | proceeds
deriving DecidableEq

/-- The guard at the top of `Compute.__init__` (SatTrack/visible.py,
lines 44-46) and in `FixWindow.get_date_time_object` (fixtime.py,
lines 193-199): any keyword other than `morning` or `evening` prints a
message and calls `sys.exit()`; a bare `sys.exit()` raises
`SystemExit(None)`, which terminates the process with status 0. -/
def windowGuard (w : String) : InitResult :=
  if w = ("morning") ∨ w = ("evening") then InitResult.proceeds
  else InitResult.exited 0

/-- Observation constraints (`observation_constraints` dict /
`compute_visible` arguments): lower bound on the satellite altitude
and lower/upper bounds on the solar zenith angle, in degrees. -/
structure Constraints where
  lowestAltitudeSatellite : ℚ
  sunZenithLowest : ℚ
  sunZenithHighest : ℚ
deriving DecidableEq

/-- The data recorded for one visible time step: the values handed to
`format.data_formating` / `output.data_formating`, with the two delta
terms stored in arcseconds exactly as computed by the source
(`delta_azimuth = (satellite_azimuth - satellite_azimuth0) * 3600`). -/
structure Sample where
  time : ℚ
  lonLatAlt : ℚ × ℚ × ℚ
  azimuth : ℚ
  altitude : ℚ
  deltaAzimuth : ℚ
  deltaAltitude : ℚ
  sunZenith : ℚ
  dt : ℚ
deriving DecidableEq

/-- The visibility predicate, identical in both implementations
(SatTrack/visible.py lines 365-367, fixtime.py lines 125-130): all
three comparisons strict. -/
def isVisible (c : Constraints) (altitude zenith : ℚ) : Bool :=
  decide (c.lowestAltitudeSatellite < altitude)
    && decide (c.sunZenithLowest < zenith)
    && decide (zenith < c.sunZenithHighest)

/-- Builds the sample recorded at a visible step from the current
queries, the previous-step azimuth/altitude and the step length. -/
def mkSample (pos : ℚ × ℚ × ℚ) (t az alt zen pAz pAlt dt : ℚ) : Sample :=
  { time := t
    lonLatAlt := pos
    azimuth := az
    altitude := alt
    deltaAzimuth := (az - pAz) * 3600
    deltaAltitude := (alt - pAlt) * 3600
    sunZenith := zen
    dt := dt }

/-- Apparent angular velocity of a recorded sample:
`np.sqrt(delta_azimuth ** 2 + delta_altitude ** 2) / dt`
(SatTrack/visible.py lines 378-381, fixtime.py lines 146-149),
modelled over the reals because of the square root. -/
noncomputable def angularVelocity (s : Sample) : ℝ :=
  Real.sqrt ((s.deltaAzimuth : ℝ) ^ 2 + (s.deltaAltitude : ℝ) ^ 2) / (s.dt : ℝ)

/-- The per-satellite simulation loop shared by `compute_visible`
(SatTrack/visible.py lines 319-405) and
`FixWindow.compute_visibility_of_satellite` (fixtime.py lines 71-173):
state is `(remaining steps, current time, previous azimuth, previous
altitude, accumulated samples)`.  A failing sub-satellite query
(`get_lonlatalt`, the only call wrapped in `try`/`except`) returns the
caught `None`, modelled `Except.ok none`; a failing look-angle query
(`get_observer_look`, not wrapped) is an uncaught exception, modelled
`Except.error ()`.  On completion the accumulated samples are returned
together with the final value of the loop variable `date_time`, which
the source advances by `advance` seconds every step; `dt` is the value
of `time_delta.total_seconds()` used in the angular-velocity division.
The previous azimuth/altitude are updated at every step, visible or
not. -/
def scanLoop (propagate : ℚ → Option (ℚ × ℚ × ℚ)) (look : ℚ → Option (ℚ × ℚ))
    (zenith : ℚ → ℚ) (c : Constraints) (advance dt : ℚ) :
    ℕ → ℚ → ℚ → ℚ → List Sample → Except Unit (Option (List Sample × ℚ))
  | 0, t, _, _, acc => Except.ok (some (acc, t))
  | n + 1, t, pAz, pAlt, acc =>
    match propagate t with
    | none => Except.ok none
    | some pos =>
      match look t with
      | none => Except.error ()
      | some azAlt =>
        let zen := zenith t
        let nextAcc :=
          if isVisible c azAlt.2 zen then
            acc ++ [mkSample pos t azAlt.1 azAlt.2 zen pAz pAlt dt]
          else acc
        scanLoop propagate look zenith c advance dt n (t + advance) azAlt.1 azAlt.2 nextAcc

/-- One whole satellite scan: the loop started with
`previous_azimuth = previous_altitude = 0`, followed by the final
`if len(write) > 0: return [[satellite] + data for data in write]`
(an empty accumulation falls through to an implicit `None`, the same
external shape as a caught propagation failure). -/
def scanSat (name : String) (propagate : ℚ → Option (ℚ × ℚ × ℚ))
    (look : ℚ → Option (ℚ × ℚ)) (zenith : ℚ → ℚ) (c : Constraints)
    (advance dt : ℚ) (n : ℕ) (t0 : ℚ) :
    Except Unit (Option (List (String × Sample))) :=
  match scanLoop propagate look zenith c advance dt n t0 0 0 [] with
  | Except.error e => Except.error e
  | Except.ok none => Except.ok none
  | Except.ok (some r) =>
      if r.1 = [] then Except.ok none
      else Except.ok (some (r.1.map (fun s => (name, s))))

/-- The batch fan-out (`mp.Pool.map` over the satellite list in
`track.py`): each satellite is scanned independently with its own
orbit bindings, and results are collected in catalogue order. -/
def scanBatch (names : List String) (propagateOf : String → ℚ → Option (ℚ × ℚ × ℚ))
    (lookOf : String → ℚ → Option (ℚ × ℚ)) (zenith : ℚ → ℚ) (c : Constraints)
    (advance dt : ℚ) (n : ℕ) (t0 : ℚ) :
    List (Except Unit (Option (List (String × Sample)))) :=
  names.map (fun nm => scanSat nm (propagateOf nm) (lookOf nm) zenith c advance dt n t0)

/-- The instant evaluated at step `k` of a scan that starts at `t0`
and advances by `advance` seconds per step. -/
def stepTime (t0 advance : ℚ) (k : ℕ) : ℚ := t0 + k * advance

/-- The previous-step azimuth/altitude pair seen at step `k`: the
initial `(pAz, pAlt)` at step 0, and the step `k - 1` look-angle
afterwards, independently of the visibility of step `k - 1`. -/
def prevLook (lookF : ℚ → ℚ × ℚ) (t0 advance pAz pAlt : ℚ) : ℕ → ℚ × ℚ
  | 0 => (pAz, pAlt)
  | k + 1 => lookF (stepTime t0 advance k)

/-- The sample a scan with total queries records at step `k`, when
that step is visible. -/
def sampleAt (posF : ℚ → ℚ × ℚ × ℚ) (lookF : ℚ → ℚ × ℚ) (zenF : ℚ → ℚ)
    (dt t0 advance pAz pAlt : ℚ) (k : ℕ) : Sample :=
  mkSample (posF (stepTime t0 advance k)) (stepTime t0 advance k)
    (lookF (stepTime t0 advance k)).1 (lookF (stepTime t0 advance k)).2
    (zenF (stepTime t0 advance k))
    (prevLook lookF t0 advance pAz pAlt k).1
    (prevLook lookF t0 advance pAz pAlt k).2 dt

/-- Whether the visibility predicate holds at step `k` of a scan with
total queries. -/
def predAt (lookF : ℚ → ℚ × ℚ) (zenF : ℚ → ℚ) (c : Constraints)
    (t0 advance : ℚ) (k : ℕ) : Bool :=
  isVisible c (lookF (stepTime t0 advance k)).2 (zenF (stepTime t0 advance k))

/-- Closed form of the record accumulated by a completed scan: the
samples of exactly the visible steps, in step order. -/
def visSamples (posF : ℚ → ℚ × ℚ × ℚ) (lookF : ℚ → ℚ × ℚ) (zenF : ℚ → ℚ)
    (c : Constraints) (dt t0 advance pAz pAlt : ℚ) (n : ℕ) : List Sample :=
  ((List.range n).filter (predAt lookF zenF c t0 advance)).map
    (sampleAt posF lookF zenF dt t0 advance pAz pAlt)

/-- `number_iterations = int((12 * 60 * 60) / seconds_delta)` of
`compute_visible` (SatTrack/visible.py line 314); `int()` truncates,
which is the floor for the positive values involved. -/
def satTrackNumberIterations (secondsDelta : ℚ) : ℕ :=
  (⌊(43200 : ℚ) / secondsDelta⌋).toNat

/-- `number_of_time_steps = int(observation_window_seconds /
self.time_delta.total_seconds())` of fixtime.py lines 56-62, where the
observation window produced by `get_date_time_object` is always 12
hours, i.e. 43200 seconds. -/
def fixWindowNumberOfTimeSteps (delta : ℚ) : ℕ :=
  (⌊(43200 : ℚ) / delta⌋).toNat

/-- Outcome of a `compute_visible` run: either the process exited in
the window guard, or the scan ran and produced its result. -/
inductive RunResult where
  | exited (code : ℕ)
  | ran (result : Except Unit (Option (List (String × Sample))))

/-- `compute_visible` end to end: the `Compute.__init__` window guard
runs first (it executes `sys.exit()` on a bad keyword before any orbit
computation); otherwise the scan runs with the fixed 60-second step of
the hardcoded `"delta": 60` (line 287) while the iteration count comes
from the `seconds_delta` argument (line 314). -/
def computeVisibleRun (w : String) (name : String)
    (propagate : ℚ → Option (ℚ × ℚ × ℚ)) (look : ℚ → Option (ℚ × ℚ))
    (zenith : ℚ → ℚ) (c : Constraints) (secondsDelta : ℚ) (t0 : ℚ) : RunResult :=
  match windowGuard w with
  | InitResult.exited code => RunResult.exited code
  | InitResult.proceeds =>
      RunResult.ran (scanSat name propagate look zenith c 60 60
        (satTrackNumberIterations secondsDelta) t0)

theorem accumulateParts_eq (parts : List ℚ) :
    ∀ (idx : ℕ) (sign acc : ℚ),
      accumulateParts parts idx sign acc
        = ((if parts.any (fun p => decide (p < 0)) then -1 else sign),
            acc + specMagnitude parts idx) := by
  induction parts with
  | nil => intro idx sign acc; simp [accumulateParts, specMagnitude]
  | cons p rest ih =>
    intro idx sign acc
    by_cases hp : p < 0
    · simp only [accumulateParts, ih, specMagnitude]
      simp [hp, add_assoc]
    · simp only [accumulateParts, ih, specMagnitude]
      simp [hp, abs_of_nonneg (not_lt.mp hp), add_assoc]

theorem signedDegrees_eq_spec (parts : List ℚ) :
    signedDegrees parts = specSignedDegrees parts := by
  simp [signedDegrees, accumulateParts_eq, specSignedDegrees]

theorem lookup_map_value (f : String → PValue → PValue) (k : String) :
    ∀ d : PDict,
      List.lookup k (d.map (fun kv => (kv.1, f kv.1 kv.2)))
        = (List.lookup k d).map (f k) := by
  intro d
  induction d with
  | nil => simp
  | cons kv rest ih =>
    obtain ⟨a, b⟩ := kv
    by_cases h : k = a
    · subst h; simp [List.lookup]
    · have hb : (k == a) = false := beq_eq_false_iff_ne.mpr h
      simp [List.lookup, hb, ih]

theorem stepTime_zero (t0 advance : ℚ) : stepTime t0 advance 0 = t0 := by
  simp [stepTime]

theorem stepTime_shift (t0 advance : ℚ) (k : ℕ) :
    stepTime (t0 + advance) advance k = stepTime t0 advance (k + 1) := by
  simp only [stepTime]
  push_cast
  ring

theorem prevLook_shift (lookF : ℚ → ℚ × ℚ) (t0 advance pAz pAlt : ℚ) (k : ℕ) :
    prevLook lookF (t0 + advance) advance (lookF t0).1 (lookF t0).2 k
      = prevLook lookF t0 advance pAz pAlt (k + 1) := by
  cases k with
  | zero => simp [prevLook, stepTime_zero]
  | succ m => simp [prevLook, stepTime_shift]

theorem sampleAt_shift (posF : ℚ → ℚ × ℚ × ℚ) (lookF : ℚ → ℚ × ℚ) (zenF : ℚ → ℚ)
    (dt t0 advance pAz pAlt : ℚ) (k : ℕ) :
    sampleAt posF lookF zenF dt (t0 + advance) advance (lookF t0).1 (lookF t0).2 k
      = sampleAt posF lookF zenF dt t0 advance pAz pAlt (k + 1) := by
  simp only [sampleAt, stepTime_shift, prevLook_shift lookF t0 advance pAz pAlt]

theorem predAt_shift (lookF : ℚ → ℚ × ℚ) (zenF : ℚ → ℚ) (c : Constraints)
    (t0 advance : ℚ) (k : ℕ) :
    predAt lookF zenF c (t0 + advance) advance k
      = predAt lookF zenF c t0 advance (k + 1) := by
  simp only [predAt, stepTime_shift]

theorem visSamples_succ (posF : ℚ → ℚ × ℚ × ℚ) (lookF : ℚ → ℚ × ℚ) (zenF : ℚ → ℚ)
    (c : Constraints) (dt t0 advance pAz pAlt : ℚ) (n : ℕ) :
    visSamples posF lookF zenF c dt t0 advance pAz pAlt (n + 1)
      = (if predAt lookF zenF c t0 advance 0
          then [sampleAt posF lookF zenF dt t0 advance pAz pAlt 0] else [])
        ++ visSamples posF lookF zenF c dt (t0 + advance) advance
            (lookF t0).1 (lookF t0).2 n := by
  have hpred : predAt lookF zenF c (t0 + advance) advance
      = (fun k => predAt lookF zenF c t0 advance (k + 1)) := by
    funext k; rw [predAt_shift]
  have hsamp : sampleAt posF lookF zenF dt (t0 + advance) advance (lookF t0).1 (lookF t0).2
      = (fun k => sampleAt posF lookF zenF dt t0 advance pAz pAlt (k + 1)) := by
    funext k; rw [sampleAt_shift]
  unfold visSamples
  rw [List.range_succ_eq_map, List.filter_cons, hpred, hsamp]
  by_cases h0 : predAt lookF zenF c t0 advance 0
  · simp only [h0, if_true, List.map_cons, List.filter_map, List.map_map,
      Function.comp_def, Nat.succ_eq_add_one, List.singleton_append]
  · simp only [h0, Bool.false_eq_true, if_false, List.filter_map, List.map_map,
      Function.comp_def, Nat.succ_eq_add_one, List.nil_append]

theorem scanLoop_total (posF : ℚ → ℚ × ℚ × ℚ) (lookF : ℚ → ℚ × ℚ) (zenF : ℚ → ℚ)
    (c : Constraints) (advance dt : ℚ) :
    ∀ (n : ℕ) (t0 pAz pAlt : ℚ) (acc : List Sample),
      scanLoop (fun t => some (posF t)) (fun t => some (lookF t)) zenF c advance dt
          n t0 pAz pAlt acc
        = Except.ok (some (acc ++ visSamples posF lookF zenF c dt t0 advance pAz pAlt n,
            t0 + n * advance)) := by
  intro n
  induction n with
  | zero =>
    intro t0 pAz pAlt acc
    simp [scanLoop, visSamples]
  | succ m ih =>
    intro t0 pAz pAlt acc
    rw [scanLoop]
    dsimp only
    rw [ih, visSamples_succ]
    have ht : t0 + advance + m * advance = t0 + (m + 1 : ℕ) * advance := by
      push_cast; ring
    rw [ht]
    by_cases hv : isVisible c (lookF t0).2 (zenF t0)
    · have hp : predAt lookF zenF c t0 advance 0 = true := by
        simp [predAt, stepTime_zero, hv]
      simp only [hv, if_true, hp, List.append_assoc, List.singleton_append]
      have hs : mkSample (posF t0) t0 (lookF t0).1 (lookF t0).2 (zenF t0) pAz pAlt dt
          = sampleAt posF lookF zenF dt t0 advance pAz pAlt 0 := by
        simp [sampleAt, prevLook, stepTime_zero]
      rw [hs]
    · have hp : predAt lookF zenF c t0 advance 0 = false := by
        simp [predAt, stepTime_zero, hv]
      simp only [hv, Bool.false_eq_true, if_false, hp, List.nil_append]

theorem scanLoop_congr (prop1 prop2 : ℚ → Option (ℚ × ℚ × ℚ))
    (look1 look2 : ℚ → Option (ℚ × ℚ)) (zen1 zen2 : ℚ → ℚ)
    (c : Constraints) (advance dt : ℚ) :
    ∀ (n : ℕ) (t0 pAz pAlt : ℚ) (acc : List Sample),
      (∀ k < n, prop1 (stepTime t0 advance k) = prop2 (stepTime t0 advance k)) →
      (∀ k < n, look1 (stepTime t0 advance k) = look2 (stepTime t0 advance k)) →
      (∀ k < n, zen1 (stepTime t0 advance k) = zen2 (stepTime t0 advance k)) →
      scanLoop prop1 look1 zen1 c advance dt n t0 pAz pAlt acc
        = scanLoop prop2 look2 zen2 c advance dt n t0 pAz pAlt acc := by
  intro n
  induction n with
  | zero =>
    intro t0 pAz pAlt acc _ _ _
    rfl
  | succ m ih =>
    intro t0 pAz pAlt acc hp hl hz
    have hp0 := hp 0 (Nat.succ_pos m)
    have hl0 := hl 0 (Nat.succ_pos m)
    have hz0 := hz 0 (Nat.succ_pos m)
    rw [stepTime_zero] at hp0 hl0 hz0
    rw [scanLoop, scanLoop, hp0, hl0, hz0]
    cases hp2 : prop2 t0 with
    | none => rfl
    | some pos =>
      cases hl2 : look2 t0 with
      | none => rfl
      | some azAlt =>
        dsimp only
        apply ih
        · intro k hk
          rw [stepTime_shift]
          exact hp (k + 1) (by omega)
        · intro k hk
          rw [stepTime_shift]
          exact hl (k + 1) (by omega)
        · intro k hk
          rw [stepTime_shift]
          exact hz (k + 1) (by omega)

theorem scanLoop_none_iff (propagate : ℚ → Option (ℚ × ℚ × ℚ)) (lookF : ℚ → ℚ × ℚ)
    (zenF : ℚ → ℚ) (c : Constraints) (advance dt : ℚ) :
    ∀ (n : ℕ) (t0 pAz pAlt : ℚ) (acc : List Sample),
      (scanLoop propagate (fun t => some (lookF t)) zenF c advance dt n t0 pAz pAlt acc
          = Except.ok none)
        ↔ ∃ k < n, propagate (stepTime t0 advance k) = none := by
  intro n
  induction n with
  | zero =>
    intro t0 pAz pAlt acc
    simp [scanLoop]
  | succ m ih =>
    intro t0 pAz pAlt acc
    rw [scanLoop]
    cases hp : propagate t0 with
    | none =>
      dsimp only
      constructor
      · intro _
        exact ⟨0, Nat.succ_pos m, by rwa [stepTime_zero]⟩
      · intro _
        rfl
    | some pos =>
      dsimp only
      rw [ih]
      constructor
      · rintro ⟨k, hk, hnone⟩
        exact ⟨k + 1, by omega, by rwa [stepTime_shift] at hnone⟩
      · rintro ⟨k, hk, hnone⟩
        cases k with
        | zero =>
          rw [stepTime_zero] at hnone
          simp [hp] at hnone
        | succ j =>
          exact ⟨j, by omega, by rwa [← stepTime_shift] at hnone⟩

theorem scanSat_total_eq (name : String) (posF : ℚ → ℚ × ℚ × ℚ) (lookF : ℚ → ℚ × ℚ)
    (zenF : ℚ → ℚ) (c : Constraints) (advance dt : ℚ) (n : ℕ) (t0 : ℚ) :
    scanSat name (fun t => some (posF t)) (fun t => some (lookF t)) zenF c advance dt n t0
      = Except.ok
          (if visSamples posF lookF zenF c dt t0 advance 0 0 n = [] then none
           else some ((visSamples posF lookF zenF c dt t0 advance 0 0 n).map
              (fun s => (name, s)))) := by
  rw [scanSat, scanLoop_total]
  by_cases h : visSamples posF lookF zenF c dt t0 advance 0 0 n = [] <;>
    simp [h]

theorem visSamples_eq_nil_iff (posF : ℚ → ℚ × ℚ × ℚ) (lookF : ℚ → ℚ × ℚ) (zenF : ℚ → ℚ)
    (c : Constraints) (dt t0 advance pAz pAlt : ℚ) (n : ℕ) :
    visSamples posF lookF zenF c dt t0 advance pAz pAlt n = []
      ↔ ∀ k < n, predAt lookF zenF c t0 advance k = false := by
  unfold visSamples
  rw [List.map_eq_nil_iff, List.filter_eq_nil_iff]
  constructor
  · intro h k hk
    have := h k (List.mem_range.mpr hk)
    simpa using this
  · intro h k hk
    have := h k (List.mem_range.mp hk)
    simp [this]

theorem scanSat_char (name : String) (propagate : ℚ → Option (ℚ × ℚ × ℚ))
    (lookF : ℚ → ℚ × ℚ) (zenF : ℚ → ℚ) (c : Constraints) (advance dt : ℚ)
    (n : ℕ) (t0 : ℚ) :
    scanSat name propagate (fun t => some (lookF t)) zenF c advance dt n t0
      = if ∃ k < n, propagate (stepTime t0 advance k) = none then Except.ok none
        else if visSamples (fun t => ((propagate t).getD (0, 0, 0))) lookF zenF c dt
            t0 advance 0 0 n = [] then Except.ok none
        else Except.ok (some
          ((visSamples (fun t => ((propagate t).getD (0, 0, 0))) lookF zenF c dt
              t0 advance 0 0 n).map (fun s => (name, s)))) := by
  by_cases hfail : ∃ k < n, propagate (stepTime t0 advance k) = none
  · have hnone := (scanLoop_none_iff propagate lookF zenF c advance dt n t0 0 0 []).mpr hfail
    rw [scanSat, hnone, if_pos hfail]
  · push_neg at hfail
    have hprop : ∀ k < n,
        propagate (stepTime t0 advance k)
          = (fun t => some ((propagate t).getD (0, 0, 0))) (stepTime t0 advance k) := by
      intro k hk
      cases hpk : propagate (stepTime t0 advance k) with
      | none => exact absurd hpk (hfail k hk)
      | some v => simp [hpk]
    have hcongr := scanLoop_congr propagate
      (fun t => some ((propagate t).getD (0, 0, 0)))
      (fun t => some (lookF t)) (fun t => some (lookF t)) zenF zenF c advance dt
      n t0 0 0 [] hprop (fun _ _ => rfl) (fun _ _ => rfl)
    rw [scanSat, hcongr, scanLoop_total]
    rw [if_neg (by push_neg; exact hfail)]
    by_cases hvis : visSamples (fun t => ((propagate t).getD (0, 0, 0))) lookF zenF c dt
        t0 advance 0 0 n = [] <;> simp [hvis]

theorem observatoryValueUpdate_passthrough (k : String) (v : PValue)
    (hnl : ∀ l, v ≠ PValue.nums l) (hk : k ≠ ("longitude")) :
    observatoryValueUpdate k v = v := by
  cases v with
  | num q => simp [observatoryValueUpdate, hk]
  | str s => simp [observatoryValueUpdate, hk]
  | nums l => exact absurd rfl (hnl l)
  | td h => simp [observatoryValueUpdate, hk]

theorem leosSet_eq (d : PDict) (m : PDict) (h : leosSetObservatoryData d = some m) :
    ∃ q, List.lookup ("tz") d = some (PValue.num q)
      ∧ m = (setObservatoryData d).map
          (fun kv => if kv.1 = ("tz") then (kv.1, PValue.td q) else kv) := by
  unfold leosSetObservatoryData at h
  cases hlz : List.lookup ("tz") d with
  | none => rw [hlz] at h; simp at h
  | some v =>
    cases v with
    | num q =>
      rw [hlz] at h
      exact ⟨q, rfl, (Option.some.inj h).symm⟩
    | str s => rw [hlz] at h; simp at h
    | nums l => rw [hlz] at h; simp at h
    | td hr => rw [hlz] at h; simp at h

theorem map_fst_tz_replace (q : ℚ) (m0 : PDict) :
    (m0.map (fun kv => if kv.1 = ("tz") then (kv.1, PValue.td q) else kv)).map Prod.fst
      = m0.map Prod.fst := by
  induction m0 with
  | nil => rfl
  | cons kv rest ih =>
    by_cases h : kv.1 = ("tz") <;> simp [h, ih]

theorem lookup_tz_replace (q : ℚ) (m0 : PDict) (w : PValue)
    (h : List.lookup ("tz") m0 = some w) :
    List.lookup ("tz")
        (m0.map (fun kv => if kv.1 = ("tz") then (kv.1, PValue.td q) else kv))
      = some (PValue.td q) := by
  induction m0 with
  | nil => simp at h
  | cons kv rest ih =>
    obtain ⟨a, b⟩ := kv
    by_cases ha : a = ("tz")
    · subst ha
      simp [List.lookup]
    · have hb : (("tz" : String) == a) = false :=
        beq_eq_false_iff_ne.mpr (fun hh => ha hh.symm)
      rw [List.map_cons, if_neg ha]
      simp [List.lookup, hb] at h ⊢
      exact ih h

theorem lookup_setObservatoryData (k : String) (d : PDict) :
    List.lookup k (setObservatoryData d)
      = (List.lookup k d).map (observatoryValueUpdate k) :=
  lookup_map_value observatoryValueUpdate k d

/-- Claim C1: for every time step of a scan (with total orbit and
ephemeris queries), a sample is appended to the satellite record if and
only if the topocentric altitude is strictly above the minimum-altitude
threshold and the solar zenith angle lies strictly between the two
sun-zenith bounds: the record is exactly the per-step samples of the
steps satisfying the strict predicate, in step order, and equality with
any of the three bounds excludes the sample, as the boundary
evaluations of `isVisible` show. -/
theorem scan_appends_sample_iff_visible :
    (∀ (name : String) (posF : ℚ → ℚ × ℚ × ℚ) (lookF : ℚ → ℚ × ℚ) (zenF : ℚ → ℚ)
        (c : Constraints) (advance dt : ℚ) (n : ℕ) (t0 : ℚ),
      scanSat name (fun t => some (posF t)) (fun t => some (lookF t)) zenF c advance dt n t0
        = Except.ok
            (if visSamples posF lookF zenF c dt t0 advance 0 0 n = [] then none
             else some ((visSamples posF lookF zenF c dt t0 advance 0 0 n).map
                (fun s => (name, s)))))
    ∧ (∀ (lookF : ℚ → ℚ × ℚ) (zenF : ℚ → ℚ) (c : Constraints) (t0 advance : ℚ)
        (k : ℕ),
        predAt lookF zenF c t0 advance k
          = isVisible c (lookF (stepTime t0 advance k)).2 (zenF (stepTime t0 advance k)))
    ∧ isVisible ⟨30, 97, 114⟩ 30 100 = false
    ∧ isVisible ⟨30, 97, 114⟩ 31 97 = false
    ∧ isVisible ⟨30, 97, 114⟩ 31 114 = false
    ∧ isVisible ⟨30, 97, 114⟩ 31 100 = true := by
  refine ⟨?_, ?_, by decide, by decide, by decide, by decide⟩
  · intro name posF lookF zenF c advance dt n t0
    exact scanSat_total_eq name posF lookF zenF c advance dt n t0
  · intro lookF zenF c t0 advance k
    rfl

/-- Claim C2: at every visible step the recorded sample carries
azimuth/altitude deltas taken against the immediately preceding step
(initialized to `(0, 0)` and updated every step, so independent of
whether the preceding step was itself visible), its angular velocity is
`sqrt((3600·Δazimuth)² + (3600·Δaltitude)²) / dt`, and deltas of one
degree of azimuth and zero altitude at a 60-second cadence give exactly
60 arcsec/s. -/
theorem angular_velocity_of_recorded_sample :
    (∀ (posF : ℚ → ℚ × ℚ × ℚ) (lookF : ℚ → ℚ × ℚ) (zenF : ℚ → ℚ)
        (c : Constraints) (advance dt t0 : ℚ) (n k : ℕ),
      k < n → predAt lookF zenF c t0 advance k = true →
        sampleAt posF lookF zenF dt t0 advance 0 0 k
            ∈ visSamples posF lookF zenF c dt t0 advance 0 0 n
          ∧ (sampleAt posF lookF zenF dt t0 advance 0 0 k).deltaAzimuth
              = ((lookF (stepTime t0 advance k)).1
                  - (prevLook lookF t0 advance 0 0 k).1) * 3600
          ∧ (sampleAt posF lookF zenF dt t0 advance 0 0 k).deltaAltitude
              = ((lookF (stepTime t0 advance k)).2
                  - (prevLook lookF t0 advance 0 0 k).2) * 3600
          ∧ angularVelocity (sampleAt posF lookF zenF dt t0 advance 0 0 k)
              = Real.sqrt
                  (((((lookF (stepTime t0 advance k)).1
                      - (prevLook lookF t0 advance 0 0 k).1) * 3600 : ℚ) : ℝ) ^ 2
                    + ((((lookF (stepTime t0 advance k)).2
                      - (prevLook lookF t0 advance 0 0 k).2) * 3600 : ℚ) : ℝ) ^ 2)
                / (dt : ℝ))
    ∧ (∀ (lookF : ℚ → ℚ × ℚ) (t0 advance : ℚ) (j : ℕ),
        prevLook lookF t0 advance 0 0 (j + 1) = lookF (stepTime t0 advance j))
    ∧ (∀ s : Sample, s.deltaAzimuth = 3600 → s.deltaAltitude = 0 → s.dt = 60 →
        angularVelocity s = 60) := by
  refine ⟨?_, ?_, ?_⟩
  · intro posF lookF zenF c advance dt t0 n k hk hp
    refine ⟨?_, rfl, rfl, rfl⟩
    unfold visSamples
    exact List.mem_map.mpr ⟨k, List.mem_filter.mpr ⟨List.mem_range.mpr hk, hp⟩, rfl⟩
  · intro lookF t0 advance j
    rfl
  · intro s h1 h2 h3
    have hcast : ((s.deltaAzimuth : ℝ)) ^ 2 + ((s.deltaAltitude : ℝ)) ^ 2
        = (3600 : ℝ) ^ 2 := by
      rw [h1, h2]
      push_cast
      norm_num
    rw [angularVelocity, hcast, Real.sqrt_sq (by norm_num : (0:ℝ) ≤ 3600), h3]
    push_cast
    norm_num

/-- Witness for C2, at the configuration of the spec example: azimuth
advancing one degree per 60-second step, constant altitude, both steps
visible; the second recorded sample moves at exactly 60 arcsec/s. -/
theorem angular_velocity_of_recorded_sample_witness :
    sampleAt (fun _ => ((0 : ℚ), (0 : ℚ), (0 : ℚ))) (fun t => (t / 60, (50 : ℚ)))
        (fun _ => (100 : ℚ)) 60 0 60 0 0 1
      ∈ visSamples (fun _ => ((0 : ℚ), (0 : ℚ), (0 : ℚ))) (fun t => (t / 60, (50 : ℚ)))
          (fun _ => (100 : ℚ)) ⟨30, 97, 114⟩ 60 0 60 0 0 2
    ∧ angularVelocity
        (sampleAt (fun _ => ((0 : ℚ), (0 : ℚ), (0 : ℚ))) (fun t => (t / 60, (50 : ℚ)))
          (fun _ => (100 : ℚ)) 60 0 60 0 0 1) = 60 := by
  have h := (angular_velocity_of_recorded_sample.1 (fun _ => ((0 : ℚ), (0 : ℚ), (0 : ℚ)))
    (fun t => (t / 60, (50 : ℚ))) (fun _ => (100 : ℚ)) ⟨30, 97, 114⟩ 60 60 0 2 1
    (by norm_num) (by decide))
  refine ⟨h.1, ?_⟩
  exact angular_velocity_of_recorded_sample.2.2 _
    (by norm_num [sampleAt, mkSample, prevLook, stepTime])
    (by norm_num [sampleAt, mkSample, prevLook, stepTime])
    (by norm_num [sampleAt, mkSample])

/-- Claim C3 (amended): with a total look-angle query, a scan result is
the absent marker `Except.ok none` exactly when the sub-satellite
position query fails at some step of the window (the scan stops at the
first such step and every already-accumulated sample is discarded) or
the whole window completes with zero visible samples — the two cases
have the same external shape; a non-absent result is the non-empty
visible-sample list with every row prefixed by the satellite identity;
and in a batch every satellite receives exactly the result of its own
scan, so the failure of one satellite leaves its siblings unaffected.  A
failing look-angle query, by contrast, escapes as an uncaught
exception (see the counterexample). -/
theorem scan_absent_iff_failure_or_no_visible :
    ∀ (name : String) (propagate : ℚ → Option (ℚ × ℚ × ℚ)) (lookF : ℚ → ℚ × ℚ)
      (zenF : ℚ → ℚ) (c : Constraints) (advance dt : ℚ) (n : ℕ) (t0 : ℚ),
      (scanSat name propagate (fun t => some (lookF t)) zenF c advance dt n t0
          = Except.ok none
        ↔ (∃ k < n, propagate (stepTime t0 advance k) = none)
          ∨ (∀ k < n, predAt lookF zenF c t0 advance k = false))
      ∧ (∀ l, scanSat name propagate (fun t => some (lookF t)) zenF c advance dt n t0
            = Except.ok (some l)
          → l ≠ []
            ∧ l = (visSamples (fun t => ((propagate t).getD (0, 0, 0))) lookF zenF c dt
                t0 advance 0 0 n).map (fun s => (name, s)))
      ∧ (∀ (names : List String) (propagateOf : String → ℚ → Option (ℚ × ℚ × ℚ))
            (lookOf : String → ℚ → Option (ℚ × ℚ)) (i : ℕ),
          (scanBatch names propagateOf lookOf zenF c advance dt n t0)[i]?
            = (names[i]?).map
                (fun nm => scanSat nm (propagateOf nm) (lookOf nm) zenF c advance dt n t0)) := by
  intro name propagate lookF zenF c advance dt n t0
  refine ⟨?_, ?_, ?_⟩
  · rw [scanSat_char]
    by_cases h1 : ∃ k < n, propagate (stepTime t0 advance k) = none
    · rw [if_pos h1]
      exact iff_of_true rfl (Or.inl h1)
    · rw [if_neg h1]
      by_cases h2 : visSamples (fun t => ((propagate t).getD (0, 0, 0))) lookF zenF c dt
          t0 advance 0 0 n = []
      · rw [if_pos h2]
        refine iff_of_true rfl (Or.inr ?_)
        exact (visSamples_eq_nil_iff _ _ _ _ _ _ _ _ _ _).mp h2
      · rw [if_neg h2]
        refine iff_of_false (by simp) ?_
        rintro (hf | hv)
        · exact h1 hf
        · exact h2 ((visSamples_eq_nil_iff _ _ _ _ _ _ _ _ _ _).mpr hv)
  · intro l hl
    rw [scanSat_char] at hl
    by_cases h1 : ∃ k < n, propagate (stepTime t0 advance k) = none
    · rw [if_pos h1] at hl
      simp at hl
    · rw [if_neg h1] at hl
      by_cases h2 : visSamples (fun t => ((propagate t).getD (0, 0, 0))) lookF zenF c dt
          t0 advance 0 0 n = []
      · rw [if_pos h2] at hl
        simp at hl
      · rw [if_neg h2] at hl
        have hmap := Option.some.inj (Except.ok.inj hl)
        subst hmap
        refine ⟨?_, rfl⟩
        intro hnil
        exact h2 (List.map_eq_nil_iff.mp hnil)
  · intro names propagateOf lookOf i
    simp [scanBatch]

/-- Witness for C3, applied at a one-step scan whose sub-satellite
query fails at the very first instant: the result is the absent
marker. -/
theorem scan_absent_iff_failure_or_no_visible_witness :
    scanSat ("SAT-1") (fun _ => (none : Option (ℚ × ℚ × ℚ)))
        (fun t => some (((fun _ => ((0 : ℚ), (0 : ℚ))) t)))
        (fun _ => (0 : ℚ)) ⟨30, 97, 114⟩ 60 60 1 0
      = Except.ok none := by
  exact (scan_absent_iff_failure_or_no_visible ("SAT-1") (fun _ => none)
    (fun _ => ((0 : ℚ), (0 : ℚ))) (fun _ => (0 : ℚ)) ⟨30, 97, 114⟩ 60 60 1 0).1.mpr
    (Or.inl ⟨0, Nat.one_pos, rfl⟩)

/-- Counterexample to C3 as stated: a failing look-angle query does not
produce the absent result — `get_observer_look` is outside the
`try`/`except` block, so the exception escapes the scan uncaught. -/
theorem look_angle_failure_is_not_absent :
    scanSat ("SAT-1") (fun _ => some ((0 : ℚ), (0 : ℚ), (0 : ℚ)))
        (fun _ => (none : Option (ℚ × ℚ))) (fun _ => (0 : ℚ)) ⟨30, 97, 114⟩ 60 60 1 0
      = Except.error ()
    ∧ (Except.error () : Except Unit (Option (List (String × Sample))))
        ≠ Except.ok none := by
  refine ⟨rfl, ?_⟩
  intro h
  cases h

/-- Claim C4: in named-window mode the start hour is `12 + utc_offset`
for evening and `0 + utc_offset` for morning, normalized into `[0,24)`
by one subtraction of 24 when `≥ 24` or one addition of 24 when `< 0`;
for morning with a negative unnormalized hour the calendar day is
decremented by one (`utc_offset = -5` gives hour 19 on the previous
day), and the window finish is the start plus 12 hours. -/
theorem named_window_start_hour :
    ∀ (tz day : ℤ),
      setHour Window.evening tz = specNormalizeHour (12 + tz)
      ∧ setHour Window.morning tz = specNormalizeHour (0 + tz)
      ∧ (tz < 0 → setWindow Window.morning day tz = (specNormalizeHour (0 + tz), day - 1))
      ∧ setWindow Window.morning day (-5) = (19, day - 1)
      ∧ (∀ w : Window, getDateTimeObjectFinish w day tz = getDateTimeObjectStart w day tz + 12) := by
  intro tz day
  refine ⟨rfl, rfl, ?_, ?_, fun w => rfl⟩
  · intro h
    dsimp only [setWindow]
    rw [if_pos (show Window.morning = Window.morning ∧ tz < 0 from ⟨rfl, h⟩)]
    exact rfl
  · have h1 : setHour Window.morning (-5) = 19 := by decide
    dsimp only [setWindow]
    rw [if_pos (show Window.morning = Window.morning ∧ (-5 : ℤ) < 0 from ⟨rfl, by norm_num⟩)]
    rw [h1]

/-- Witness for C4: the morning window at offset `-5` on day 25 starts
at hour 19 of day 24. -/
theorem named_window_start_hour_witness :
    setWindow Window.morning 25 (-5) = (19, 24) := by
  have h := (named_window_start_hour (-5) 25).2.2.1 (by norm_num)
  have h2 : specNormalizeHour (0 + (-5)) = 19 := by decide
  rw [h, h2]
  norm_num

/-- Counterexample to C8 as stated: for the evening window at integer
offset 12 the two implementations disagree — `Compute.set_window`
normalizes the hour to 0 but keeps day 25, while
`FixWindow.get_date_time_object` (datetime arithmetic) rolls over to
day 26 hour 0. -/
theorem window_implementations_differ :
    setWindow Window.evening 25 12 = (0, 25)
    ∧ dayOfDateTime (getDateTimeObjectStart Window.evening 25 12) = 26
    ∧ hourOfDateTime (getDateTimeObjectStart Window.evening 25 12) = 0
    ∧ (25 : ℤ) ≠ 26 := by
  refine ⟨by decide, by decide, by decide, by decide⟩

/-- Claim C8 (amended): the two time-window implementations produce
the same start day and hour exactly on the offsets where the single
`±24` correction of `Compute._set_hour` reproduces datetime
arithmetic: `-12 ≤ tz ≤ 11` for evening and `-24 ≤ tz ≤ 23` for
morning (day indices compared on the unbounded day axis, so month
rollover of the decremented day is outside the comparison). -/
theorem window_implementations_agree_in_range :
    ∀ (day tz : ℤ),
      (-12 ≤ tz → tz ≤ 11 →
        setWindow Window.evening day tz
          = (hourOfDateTime (getDateTimeObjectStart Window.evening day tz),
             dayOfDateTime (getDateTimeObjectStart Window.evening day tz)))
      ∧ (-24 ≤ tz → tz ≤ 23 →
        setWindow Window.morning day tz
          = (hourOfDateTime (getDateTimeObjectStart Window.morning day tz),
             dayOfDateTime (getDateTimeObjectStart Window.morning day tz))) := by
  intro day tz
  constructor
  · intro ha hb
    dsimp only [setWindow, setHour, getDateTimeObjectStart, dayOfDateTime, hourOfDateTime]
    have hw : ¬(Window.evening = Window.morning ∧ tz < 0) := by
      rintro ⟨hc, -⟩
      cases hc
    rw [if_neg hw, Prod.mk.injEq]
    constructor
    · split_ifs <;> omega
    · omega
  · intro ha hb
    dsimp only [setWindow, setHour, getDateTimeObjectStart, dayOfDateTime, hourOfDateTime]
    by_cases hneg : tz < 0
    · rw [if_pos (show Window.morning = Window.morning ∧ tz < 0 from ⟨rfl, hneg⟩),
        Prod.mk.injEq]
      constructor
      · split_ifs <;> omega
      · omega
    · rw [if_neg (show ¬(Window.morning = Window.morning ∧ tz < 0) from
          fun hc => hneg hc.2), Prod.mk.injEq]
      constructor
      · split_ifs <;> omega
      · omega

/-- Witness for C8 (amended): evening at offset `+4` on day 25 agrees
between the two implementations (hour 16, same day). -/
theorem window_implementations_agree_in_range_witness :
    setWindow Window.evening 25 4
      = (hourOfDateTime (getDateTimeObjectStart Window.evening 25 4),
         dayOfDateTime (getDateTimeObjectStart Window.evening 25 4)) := by
  exact (window_implementations_agree_in_range 25 4).1 (by norm_num) (by norm_num)

/-- Claim C9 (amended): an unrecognized window keyword makes the run
abort in the constructor guard before any scan computation, but
`sys.exit()` is called with no argument, so the process exit status is
0, not non-zero. -/
theorem invalid_window_aborts_before_scan :
    ∀ (w : String) (name : String) (propagate : ℚ → Option (ℚ × ℚ × ℚ))
      (look : ℚ → Option (ℚ × ℚ)) (zenith : ℚ → ℚ) (c : Constraints)
      (secondsDelta t0 : ℚ),
      w ≠ ("morning") → w ≠ ("evening") →
        computeVisibleRun w name propagate look zenith c secondsDelta t0
          = RunResult.exited 0 := by
  intro w name propagate look zenith c sd t0 h1 h2
  rw [computeVisibleRun, windowGuard, if_neg (by rintro (hc | hc) <;> [exact h1 hc; exact h2 hc])]

/-- Witness for C9: the keyword `midnight` aborts the run with exit
status 0. -/
theorem invalid_window_aborts_before_scan_witness :
    computeVisibleRun ("midnight") ("SAT-1") (fun _ => some ((0 : ℚ), (0 : ℚ), (0 : ℚ)))
        (fun _ => some ((0 : ℚ), (0 : ℚ))) (fun _ => (0 : ℚ)) ⟨30, 97, 114⟩ 60 0
      = RunResult.exited 0 := by
  exact invalid_window_aborts_before_scan ("midnight") ("SAT-1") _ _ _ _ 60 0
    (by decide) (by decide)

/-- Counterexample to C9 as stated: the aborting run exits with status
0 (bare `sys.exit()` raises `SystemExit(None)`), so there is no
non-zero exit status as the claim asserts. -/
theorem invalid_window_exit_status_zero :
    computeVisibleRun ("midnight") ("SAT-1") (fun _ => some ((0 : ℚ), (0 : ℚ), (0 : ℚ)))
        (fun _ => some ((0 : ℚ), (0 : ℚ))) (fun _ => (1 : ℚ)) ⟨30, 97, 114⟩ 60 0
      = RunResult.exited 0
    ∧ ¬ ∃ code : ℕ, code ≠ 0
        ∧ computeVisibleRun ("midnight") ("SAT-1") (fun _ => some ((0 : ℚ), (0 : ℚ), (0 : ℚ)))
            (fun _ => some ((0 : ℚ), (0 : ℚ))) (fun _ => (1 : ℚ)) ⟨30, 97, 114⟩ 60 0
          = RunResult.exited code := by
  have h : computeVisibleRun ("midnight") ("SAT-1") (fun _ => some ((0 : ℚ), (0 : ℚ), (0 : ℚ)))
      (fun _ => some ((0 : ℚ), (0 : ℚ))) (fun _ => (1 : ℚ)) ⟨30, 97, 114⟩ 60 0
      = RunResult.exited 0 := rfl
  refine ⟨h, ?_⟩
  rintro ⟨code, hc, heq⟩
  rw [h] at heq
  injection heq with h3
  exact hc h3.symm

/-- Claim C5: a `[degree, minute, second]` component list resolves to
`sign * Σ |part_i| / 60^i` with the sign taken from the (first)
negative component; for the `longitude` key only, a result above 180
becomes `360 - x` and any other result is negated (raw 200 maps to
160, raw 70.73 maps to -70.73); `latitude` keeps the signed
accumulation unchanged. -/
theorem observatory_coordinate_resolution :
    ∀ (parts : List ℚ) (d : PDict) (q : ℚ),
      signedDegrees parts = specSignedDegrees parts
      ∧ (List.lookup ("longitude") d = some (PValue.num q) →
          List.lookup ("longitude") (setObservatoryData d)
            = some (PValue.num (if q > 180 then 360 - q else -q)))
      ∧ (List.lookup ("longitude") d = some (PValue.nums parts) →
          List.lookup ("longitude") (setObservatoryData d)
            = some (PValue.num
                (if signedDegrees parts > 180 then 360 - signedDegrees parts
                 else -signedDegrees parts)))
      ∧ (List.lookup ("latitude") d = some (PValue.nums parts) →
          List.lookup ("latitude") (setObservatoryData d)
            = some (PValue.num (signedDegrees parts)))
      ∧ List.lookup ("longitude") (setObservatoryData [(("longitude"), PValue.num 200)])
          = some (PValue.num 160)
      ∧ List.lookup ("longitude")
            (setObservatoryData [(("longitude"), PValue.num (7073 / 100))])
          = some (PValue.num (-7073 / 100)) := by
  intro parts d q
  refine ⟨signedDegrees_eq_spec parts, ?_, ?_, ?_, ?_, ?_⟩
  · intro h
    rw [lookup_setObservatoryData, h]
    simp [observatoryValueUpdate]
  · intro h
    rw [lookup_setObservatoryData, h]
    simp [observatoryValueUpdate]
  · intro h
    rw [lookup_setObservatoryData, h]
    simp [observatoryValueUpdate]
  · show some (observatoryValueUpdate ("longitude") (PValue.num 200))
        = some (PValue.num 160)
    simp only [observatoryValueUpdate]
    norm_num
  · show some (observatoryValueUpdate ("longitude") (PValue.num (7073 / 100)))
        = some (PValue.num (-7073 / 100))
    simp only [observatoryValueUpdate]
    norm_num

/-- Witness for C5: the hardcoded La Silla descriptor resolves its
longitude component list through the signed accumulation and the
longitude normalization. -/
theorem observatory_coordinate_resolution_witness :
    List.lookup ("longitude") (setObservatoryData testObservatory)
      = some (PValue.num
          (if signedDegrees [70, 43.8] > 180 then 360 - signedDegrees [70, 43.8]
           else -signedDegrees [70, 43.8])) := by
  exact (observatory_coordinate_resolution [70, 43.8] testObservatory 0).2.2.1 rfl

/-- Claim C6 (code bug in `compute_visible`): the iteration count is
`int(43200 / seconds_delta)` but every step advances the hardcoded 60
seconds of `time_parameters["delta"] = 60`, so at `seconds_delta = 120`
the loop performs 360 steps of 60 s and exits with
`date_time = start + 21600 s`, not at `end_utc = start + 43200 s`;
the fixtime implementation steps by its configured delta and does exit
at `start + 43200 s`. -/
theorem sattrack_fixed_step_exit_time :
    satTrackNumberIterations 120 = 360
    ∧ scanLoop (fun _ => some ((0 : ℚ), (0 : ℚ), (0 : ℚ)))
        (fun _ => some ((0 : ℚ), (0 : ℚ))) (fun _ => (0 : ℚ))
        ⟨30, 97, 114⟩ 60 60 (satTrackNumberIterations 120) 0 0 0 []
        = Except.ok (some ([], 21600))
    ∧ ((21600 : ℚ) ≠ 0 + 12 * 60 * 60)
    ∧ fixWindowNumberOfTimeSteps 120 = 360
    ∧ scanLoop (fun _ => some ((0 : ℚ), (0 : ℚ), (0 : ℚ)))
        (fun _ => some ((0 : ℚ), (0 : ℚ))) (fun _ => (0 : ℚ))
        ⟨30, 97, 114⟩ 120 120 (fixWindowNumberOfTimeSteps 120) 0 0 0 []
        = Except.ok (some ([], 43200))
    ∧ ((43200 : ℚ) = 0 + 12 * 60 * 60)
    ∧ computeVisibleRun ("evening") ("SAT-1") (fun _ => some ((0 : ℚ), (0 : ℚ), (0 : ℚ)))
        (fun _ => some ((0 : ℚ), (0 : ℚ))) (fun _ => (0 : ℚ)) ⟨30, 97, 114⟩ 120 0
        = RunResult.ran (scanSat ("SAT-1") (fun _ => some ((0 : ℚ), (0 : ℚ), (0 : ℚ)))
            (fun _ => some ((0 : ℚ), (0 : ℚ))) (fun _ => (0 : ℚ)) ⟨30, 97, 114⟩ 60 60
            (satTrackNumberIterations 120) 0) := by
  have h360 : (43200 : ℚ) / 120 = ((360 : ℕ) : ℚ) := by norm_num
  have hN : satTrackNumberIterations 120 = 360 := by
    rw [satTrackNumberIterations, h360, Int.floor_natCast]
    rfl
  have hN2 : fixWindowNumberOfTimeSteps 120 = 360 := by
    rw [fixWindowNumberOfTimeSteps, h360, Int.floor_natCast]
    rfl
  refine ⟨hN, ?_, by norm_num, hN2, ?_, by norm_num, rfl⟩
  · rw [hN]
    have hvis : visSamples (fun _ => ((0 : ℚ), (0 : ℚ), (0 : ℚ)))
        (fun _ => ((0 : ℚ), (0 : ℚ))) (fun _ => (0 : ℚ)) ⟨30, 97, 114⟩ 60 0 60 0 0 360
        = [] := by
      rw [visSamples_eq_nil_iff]
      intro j hj
      rfl
    have h := scanLoop_total (fun _ => ((0 : ℚ), (0 : ℚ), (0 : ℚ)))
      (fun _ => ((0 : ℚ), (0 : ℚ))) (fun _ => (0 : ℚ)) ⟨30, 97, 114⟩ 60 60 360 0 0 0 []
    rw [hvis] at h
    norm_num at h
    exact h
  · rw [hN2]
    have hvis : visSamples (fun _ => ((0 : ℚ), (0 : ℚ), (0 : ℚ)))
        (fun _ => ((0 : ℚ), (0 : ℚ))) (fun _ => (0 : ℚ)) ⟨30, 97, 114⟩ 120 0 120 0 0 360
        = [] := by
      rw [visSamples_eq_nil_iff]
      intro j hj
      rfl
    have h := scanLoop_total (fun _ => ((0 : ℚ), (0 : ℚ), (0 : ℚ)))
      (fun _ => ((0 : ℚ), (0 : ℚ))) (fun _ => (0 : ℚ)) ⟨30, 97, 114⟩ 120 120 360 0 0 0 []
    rw [hvis] at h
    norm_num at h
    exact h

/-- Claim C7 (code bug in `compute_visible`): the look-angle and
solar-zenith queries receive the raw `observatory_data` parameter
values (no normalization), while `radec_of` uses the observer built
from the hardcoded `test_observatory`; for a run descriptor with
latitude 10 and longitude 100 the observer stays at the normalized La
Silla latitude `-8777/300` and the look query gets the raw longitude
100 instead of the resolved `-100`, so the three collaborator calls do
not share one resolved observatory.  `FixWindow`, by contrast, feeds
all three from the one dict resolved by its constructor, as the
`leos*Binding` evaluations on the same descriptor show. -/
theorem compute_visible_observatory_binding_mismatch :
    computeVisibleLookLatitude
        [(("name"), PValue.str ("X")), (("longitude"), PValue.num 100),
         (("latitude"), PValue.num 10), (("altitude"), PValue.num 1000),
         (("tz"), PValue.num 0)]
      = some (PValue.num 10)
    ∧ computeVisibleObserverLatitude = some (PValue.num (-8777 / 300))
    ∧ computeVisibleObserverLatitude
        ≠ List.lookup ("latitude") (setObservatoryData
            [(("name"), PValue.str ("X")), (("longitude"), PValue.num 100),
             (("latitude"), PValue.num 10), (("altitude"), PValue.num 1000),
             (("tz"), PValue.num 0)])
    ∧ computeVisibleLookLongitude
        [(("name"), PValue.str ("X")), (("longitude"), PValue.num 100),
         (("latitude"), PValue.num 10), (("altitude"), PValue.num 1000),
         (("tz"), PValue.num 0)]
        ≠ List.lookup ("longitude") (setObservatoryData
            [(("name"), PValue.str ("X")), (("longitude"), PValue.num 100),
             (("latitude"), PValue.num 10), (("altitude"), PValue.num 1000),
             (("tz"), PValue.num 0)])
    ∧ leosLookBinding testObservatory
        = some (some (PValue.num (-7073 / 100)), some (PValue.num (-8777 / 300)),
            some (PValue.num (2347 / 1000)))
    ∧ leosZenithBinding testObservatory
        = some (some (PValue.num (-7073 / 100)), some (PValue.num (-8777 / 300)))
    ∧ leosObserverBinding testObservatory
        = some (some (PValue.num (-8777 / 300)), some (PValue.num (-7073 / 100)),
            some (PValue.num 2347)) := by
  have hlat : signedDegrees [-29, 15.4] = -8777 / 300 := by
    simp only [signedDegrees, accumulateParts]
    norm_num
  have hlon : signedDegrees [70, 43.8] = 7073 / 100 := by
    simp only [signedDegrees, accumulateParts]
    norm_num
  refine ⟨rfl, ?_, ?_, ?_, ?_, ?_, ?_⟩
  · show some (PValue.num (signedDegrees [-29, 15.4])) = some (PValue.num (-8777 / 300))
    rw [hlat]
  · show some (PValue.num (signedDegrees [-29, 15.4])) ≠ some (PValue.num 10)
    rw [hlat]
    intro hcon
    have := PValue.num.inj (Option.some.inj hcon)
    norm_num at this
  · show some (PValue.num 100)
        ≠ some (PValue.num (if (100 : ℚ) > 180 then 360 - 100 else -100))
    intro hcon
    have := PValue.num.inj (Option.some.inj hcon)
    norm_num at this
  · rw [show leosLookBinding testObservatory
        = some (some (PValue.num
              (if signedDegrees [70, 43.8] > 180 then 360 - signedDegrees [70, 43.8]
               else -signedDegrees [70, 43.8])),
            some (PValue.num (signedDegrees [-29, 15.4])),
            some (PValue.num (2347 / 1000))) from rfl]
    rw [hlat, hlon]
    norm_num
  · rw [show leosZenithBinding testObservatory
        = some (some (PValue.num
              (if signedDegrees [70, 43.8] > 180 then 360 - signedDegrees [70, 43.8]
               else -signedDegrees [70, 43.8])),
            some (PValue.num (signedDegrees [-29, 15.4]))) from rfl]
    rw [hlat, hlon]
    norm_num
  · rw [show leosObserverBinding testObservatory
        = some (some (PValue.num (signedDegrees [-29, 15.4])),
            some (PValue.num
              (if signedDegrees [70, 43.8] > 180 then 360 - signedDegrees [70, 43.8]
               else -signedDegrees [70, 43.8])),
            some (PValue.num 2347)) from rfl]
    rw [hlat, hlon]
    norm_num

/-- Claim C10: both `set_observatory_data` implementations return a
fresh dict (the embedding is a pure function of the input, which the
source never writes to): the output has exactly the input keys in
order; every non-list value under a key other than `longitude` (and,
for the leosTrack version, other than `tz`) passes through unchanged;
and the leosTrack version replaces the `tz` value by a timedelta of
the raw `tz` hours. -/
theorem set_observatory_data_keys_and_passthrough :
    ∀ (d : PDict) (k : String) (v : PValue) (m : PDict) (q : ℚ),
      (setObservatoryData d).map Prod.fst = d.map Prod.fst
      ∧ ((k, v) ∈ d → (∀ l, v ≠ PValue.nums l) → k ≠ ("longitude") →
          (k, v) ∈ setObservatoryData d)
      ∧ (leosSetObservatoryData d = some m → m.map Prod.fst = d.map Prod.fst)
      ∧ (leosSetObservatoryData d = some m → (k, v) ∈ d →
          (∀ l, v ≠ PValue.nums l) → k ≠ ("longitude") → k ≠ ("tz") → (k, v) ∈ m)
      ∧ (List.lookup ("tz") d = some (PValue.num q) →
          ∃ m2, leosSetObservatoryData d = some m2
            ∧ List.lookup ("tz") m2 = some (PValue.td q)) := by
  intro d k v m q
  refine ⟨?_, ?_, ?_, ?_, ?_⟩
  · simp [setObservatoryData]
  · intro hmem hnl hk
    refine List.mem_map.mpr ⟨(k, v), hmem, ?_⟩
    show (k, observatoryValueUpdate k v) = (k, v)
    rw [observatoryValueUpdate_passthrough k v hnl hk]
  · intro hm
    obtain ⟨q2, -, rfl⟩ := leosSet_eq d m hm
    rw [map_fst_tz_replace]
    simp [setObservatoryData]
  · intro hm hmem hnl hk htz
    obtain ⟨q2, -, rfl⟩ := leosSet_eq d m hm
    refine List.mem_map.mpr ⟨(k, v), ?_, ?_⟩
    · refine List.mem_map.mpr ⟨(k, v), hmem, ?_⟩
      show (k, observatoryValueUpdate k v) = (k, v)
      rw [observatoryValueUpdate_passthrough k v hnl hk]
    · show (if k = ("tz") then (k, PValue.td q2) else (k, v)) = (k, v)
      rw [if_neg htz]
  · intro htz
    refine ⟨(setObservatoryData d).map
        (fun kv => if kv.1 = ("tz") then (kv.1, PValue.td q) else kv), ?_, ?_⟩
    · show (match List.lookup ("tz") d with
        | some (PValue.num q0) =>
            some ((d.map (fun kv => (kv.1, observatoryValueUpdate kv.1 kv.2))).map
              (fun kv => if kv.1 = ("tz") then (kv.1, PValue.td q0) else kv))
        | _ => none)
        = some ((setObservatoryData d).map
            (fun kv => if kv.1 = ("tz") then (kv.1, PValue.td q) else kv))
      rw [htz]
      exact rfl
    · have hmid : List.lookup ("tz") (setObservatoryData d)
          = some (observatoryValueUpdate ("tz") (PValue.num q)) := by
        rw [lookup_setObservatoryData, htz]
        rfl
      exact lookup_tz_replace q _ _ hmid

/-- Witness for C10: the non-list `altitude` entry of the La Silla
descriptor passes through `_set_observatory_data` unchanged. -/
theorem set_observatory_data_keys_and_passthrough_witness :
    ((("altitude"), PValue.num 2347)) ∈ setObservatoryData testObservatory := by
  exact (set_observatory_data_keys_and_passthrough testObservatory ("altitude")
    (PValue.num 2347) [] 0).2.1 (by decide)
    (fun l h => PValue.noConfusion h) (by decide)
